import Mathlib

/-
  Verification of the asus-rgb keyboard lighting controller.

  Shallow embedding of the device-control protocol, the pattern library,
  the animation engine lifecycle, the log buffer, the live-update
  coalescer and the daemon state application, translated from:
    - src/kbdrgb.py                      (namespace KbdrgbMain)
    - src/archive/kbdrgb.py              (namespace ArchiveKbdrgb)
    - src/archive/kbdrgb_daemon.py       (namespace ArchiveDaemon)
    - src/archive/OldCode/archive/kbdrgb_gui.py (namespace OldGui)

  Python machine integers are modelled as Nat/Int; Python float trig is
  modelled over the reals; int() truncation of a nonnegative float is
  Int.floor.
-/

namespace KbdrgbMain

/-- Report id used by set_color in src/kbdrgb.py (line 55): 0x05. -/
def set_color_report_id : Nat := 0x05

/-- Payload built by set_color in src/kbdrgb.py (lines 54-55):
    send_feature_report(dev_path, 0x05, [0x01, 0, 0, 100, 0, int(r), int(g), int(b), int(i)]).
    The channel arguments are passed through unchanged; no clamping is applied
    in this variant (int() on a Python int is the identity). -/
def set_color_payload (r g b i : Int) : List Int :=
  [0x01, 0, 0, 100, 0, r, g, b, i]

/-- QueueHandler.emit in src/kbdrgb.py (lines 32-35): log_queue.put_nowait inside
    try, except queue.Full: pass.  On a full queue the new record is silently
    dropped; the queue is left unchanged.  Insertion never blocks (put_nowait). -/
def emit (maxsize : Nat) (q : List Nat) (x : Nat) : List Nat :=
  if q.length < maxsize then q ++ [x] else q

/-- State of AnimationController in src/kbdrgb.py (lines 79-112):
    a worker thread handle, the shared stop event, and current_style. -/
structure AnimCtrl where
  threadAlive : Bool
  stopFlag : Bool
  current_style : String
deriving DecidableEq

/-- AnimationController.stop in src/kbdrgb.py (lines 109-112):
    if a worker is alive, set the stop event and join (bounded, 1 s);
    then unconditionally set current_style to Static and call
    disable_autonomous, which sends feature report 0x0B.
    Result: the new controller state and the list of report ids written. -/
def AnimCtrl.stop (s : AnimCtrl) : AnimCtrl × List Nat :=
  let s1 := if s.threadAlive then { s with stopFlag := true } else s
  ({ s1 with current_style := "Static" }, [0x0B])

/-- Intensity written by the breathing worker in src/kbdrgb.py (lines 73-74):
    phase = (1 - math.cos(k * 2 * math.pi / 180)) / 2, then
    int(phase * intensity).  The product is nonnegative, so the int()
    truncation is the floor. -/
noncomputable def breathing_intensity (k : Nat) (intensity : Nat) : Int :=
  ⌊((1 - Real.cos (k * (2 * Real.pi) / 180)) / 2) * intensity⌋

end KbdrgbMain

namespace ArchiveDaemon

/-- HIDReport.SET_COLOR in src/archive/kbdrgb_daemon.py (line 23). -/
def SET_COLOR : Nat := 0x05

/-- HIDReport.DISABLE_AUTONOMOUS in src/archive/kbdrgb_daemon.py (line 24). -/
def DISABLE_AUTONOMOUS : Nat := 0x0B

/-- HIDConstants.MAX_INTENSITY in src/archive/kbdrgb_daemon.py (line 30). -/
def MAX_INTENSITY : Int := 255

/-- Channel clamp in set_color (src/archive/kbdrgb_daemon.py lines 83-85,
    identical in src/archive/kbdrgb.py lines 134-136): max(0, min(255, int(x))). -/
def clampChan (x : Int) : Int := max 0 (min 255 x)

/-- Intensity clamp in set_color (src/archive/kbdrgb_daemon.py line 86):
    max(0, min(MAX_INTENSITY, int(i))). -/
def clampIntensity (x : Int) : Int := max 0 (min MAX_INTENSITY x)

/-- Payload built by set_color in src/archive/kbdrgb_daemon.py (lines 88-93)
    and identically in src/archive/kbdrgb.py (lines 139-144):
    [0x01, start_id & 0xFF, (start_id >> 8) & 0xFF,
     end_id & 0xFF, (end_id >> 8) & 0xFF, r, g, b, i]
    with the four channels clamped first. -/
def set_color_payload (r g b i : Int) (start_id end_id : Nat) : List Int :=
  [0x01,
   ((start_id &&& 0xFF : Nat) : Int), (((start_id >>> 8) &&& 0xFF : Nat) : Int),
   ((end_id &&& 0xFF : Nat) : Int), (((end_id >>> 8) &&& 0xFF : Nat) : Int),
   clampChan r, clampChan g, clampChan b, clampIntensity i]

/-- The feature report emitted by set_color (src/archive/kbdrgb_daemon.py line 94):
    report id HIDReport.SET_COLOR together with the payload. -/
def set_color_report (r g b i : Int) (start_id end_id : Nat) : Nat × List Int :=
  (SET_COLOR, set_color_payload r g b i start_id end_id)

/-- A parsed daemon state record (src/archive/kbdrgb_daemon.py apply_state,
    lines 246-254): each field may be absent from the JSON object, which
    state.get models as an Option.  The interval is a Python float, modelled
    as a rational. -/
structure StateRecord where
  style : Option String
  color : Option (Nat × Nat × Nat)
  intensity : Option Nat
  interval : Option Rat
  device_path : Option String

/-- The argument tuple passed to start_animation by apply_state
    (src/archive/kbdrgb_daemon.py line 254), in source order. -/
structure StartCall where
  style : String
  color : Nat × Nat × Nat
  intensity : Nat
  interval : Rat
  device_path : String
deriving DecidableEq

/-- DaemonState.apply_state (src/archive/kbdrgb_daemon.py lines 246-254):
    each field is read with state.get(key, default) - style defaults to
    "static", color to (255,255,255), intensity to 255, interval to 0.1,
    device_path to the configured default - and start_animation is invoked
    with exactly the resulting values.  The function is total: a record with
    missing fields is never rejected. -/
def apply_state (default_device_path : String) (state : StateRecord) : StartCall :=
  { style := state.style.getD "static"
  , color := state.color.getD (255, 255, 255)
  , intensity := state.intensity.getD 255
  , interval := state.interval.getD 0.1
  , device_path := state.device_path.getD default_device_path }

end ArchiveDaemon

namespace ArchiveKbdrgb

/-- State of AnimationController in src/archive/kbdrgb.py (lines 528-590):
    the worker handle (alive or not) and the shared stop event. -/
structure AnimCtrl where
  threadAlive : Bool
  stopFlag : Bool
deriving DecidableEq

/-- AnimationController.stop in src/archive/kbdrgb.py (lines 577-590):
    if a worker is alive, set the stop event and join with a 2 s bound;
    in every case clear the handle (self.thread = None).  No feature report
    is sent on this path, and the function is total (no exception).
    Result: the new controller state and the (empty) list of report ids written. -/
def AnimCtrl.stop (s : AnimCtrl) : AnimCtrl × List Nat :=
  if s.threadAlive then (⟨false, true⟩, []) else (⟨false, s.stopFlag⟩, [])

/-- A snapshot of the engine during AnimationController.start
    (src/archive/kbdrgb.py lines 537-575): whether the superseded worker A is
    alive, whether the new worker B has been spawned, and the value of the
    shared stop event. -/
structure EngState where
  aAlive : Bool
  bAlive : Bool
  stopFlag : Bool
deriving DecidableEq

/-- The sequence of engine states traversed by start(styleB, ...) when a
    worker A is running (src/archive/kbdrgb.py lines 537-575):
    initial state; stop() sets the stop event (line 580); the bounded
    join(timeout=2.0) either sees A exit (joinOk) or times out, in which case
    A is orphaned and keeps running (lines 582-586); stop_event.clear()
    (line 539); the new thread for B is spawned (line 572).  The first device
    write of B happens inside the spawned thread, strictly after the last
    state of this trace. -/
def startTrace (joinOk : Bool) : List EngState :=
  [⟨true, false, false⟩,
   ⟨true, false, true⟩,
   ⟨!joinOk, false, true⟩,
   ⟨!joinOk, false, false⟩,
   ⟨!joinOk, true, false⟩]

/-- Number of workers alive in an engine snapshot. -/
def aliveWorkers (s : EngState) : Nat :=
  (if s.aAlive then 1 else 0) + (if s.bAlive then 1 else 0)

/-- Per-step writes performed by the breathing worker of src/archive/kbdrgb.py
    (lines 293-304) for a given sequence of set_color outcomes: the loop
    executes `if not set_color(...): return`, so the worker performs writes
    until the first failed one (inclusive) and then exits. -/
def breathingWrites : List Bool → Nat
  | [] => 0
  | ok :: rest => if ok then breathingWrites rest + 1 else 1

/-- Per-step writes performed by the rainbow worker of src/archive/kbdrgb.py
    (lines 318-330) for a given sequence of set_color outcomes: the result of
    set_color is ignored (line 329), so every step performs its write
    regardless of earlier failures. -/
def rainbowWrites : List Bool → Nat
  | [] => 0
  | _ :: rest => rainbowWrites rest + 1

/-- QueueHandler.emit in src/archive/kbdrgb.py (lines 60-75): put_nowait; on
    queue.Full, get_nowait() evicts the oldest record (a no-op if the queue
    emptied concurrently) and the put is retried, dropping the message only if
    the queue is somehow still full.  Insertion never blocks. -/
def emit (maxsize : Nat) (q : List Nat) (x : Nat) : List Nat :=
  if q.length < maxsize then q ++ [x]
  else if (q.drop 1).length < maxsize then q.drop 1 ++ [x] else q.drop 1

/-- Number of LED segments in the ripple pattern (src/archive/kbdrgb.py line 478). -/
def leds : Nat := 20

/-- Baseline segment intensity int(0.20 * 255) = 51 (src/archive/kbdrgb.py line 479). -/
def base_intensity : Nat := 51

/-- Per-keystroke boost int(0.05 * 255) = 12 (src/archive/kbdrgb.py line 480). -/
def ripple_boost : Nat := 12

/-- The boost applied by a simulated keystroke at keystroke_led
    (src/archive/kbdrgb.py lines 503-508): every segment i with
    max(0, keystroke_led - 2) <= i < min(leds, keystroke_led + 3) gains
    ripple_boost // (|i - keystroke_led| + 1), capped at 255. -/
def boostAt (keystroke_led : Fin 20) (vs : Nat → Nat) : Nat → Nat := fun i =>
  if max 0 (keystroke_led.val - 2) ≤ i ∧ i < min leds (keystroke_led.val + 3) then
    min 255 (vs i + ripple_boost / (Nat.dist i keystroke_led.val + 1))
  else vs i

/-- The per-tick decay (src/archive/kbdrgb.py lines 511-514): every segment
    above the baseline decays by 2, never below base_intensity. -/
def decayAt (vs : Nat → Nat) : Nat → Nat := fun seg =>
  if base_intensity < vs seg then max base_intensity (vs seg - 2) else vs seg

/-- One iteration of the ripple main loop (src/archive/kbdrgb.py lines
    497-521): an optional random keystroke boost followed by the decay pass.
    The randomness (trigger timing and chosen segment) is modelled as an
    arbitrary Option (Fin 20) input. -/
def rippleStep (keystroke : Option (Fin 20)) (vs : Nat → Nat) : Nat → Nat :=
  decayAt (match keystroke with
           | some led => boostAt led vs
           | none => vs)

/-- The ripple intensity array after a sequence of loop iterations. -/
def rippleRun : List (Option (Fin 20)) → (Nat → Nat) → (Nat → Nat)
  | [], vs => vs
  | ev :: evs, vs => rippleRun evs (rippleStep ev vs)

/-- The initial ripple intensity array: every segment seeded at the baseline
    (src/archive/kbdrgb.py line 485). -/
def rippleInit : Nat → Nat := fun _ => base_intensity

end ArchiveKbdrgb

namespace OldGui

/-- State of the LiveSender coalescer
    (src/archive/OldCode/archive/kbdrgb_gui.py lines 195-220): the latest
    queued (r,g,b,i) value and the last value recorded as sent.  The Python
    sentinel tuple of Nones is modelled as Option.none. -/
structure LiveSender where
  pending : Option (Int × Int × Int × Int)
  last : Option (Int × Int × Int × Int)
deriving DecidableEq

/-- Initial LiveSender state (lines 198-199). -/
def LiveSender.init : LiveSender := ⟨none, none⟩

/-- LiveSender.queue (lines 206-207): overwrite the pending value. -/
def LiveSender.queue (s : LiveSender) (v : Int × Int × Int × Int) : LiveSender :=
  { s with pending := some v }

/-- LiveSender._flush (lines 209-220), run once per ~8 ms timer tick: if a
    pending value exists and differs from the last sent value, and the device
    path exists, issue one coalesced write (disable_autonomous + set_color)
    and record the value as sent; otherwise do nothing.  The Bool result is
    whether a write was issued this tick. -/
def LiveSender.flush (dev_exists : Bool) (s : LiveSender) : LiveSender × Bool :=
  match s.pending with
  | none => (s, false)
  | some p =>
    if s.last ≠ some p then
      if dev_exists then ({ s with last := some p }, true) else (s, false)
    else (s, false)

end OldGui

/-- Modelled from the spec wording of claim C5: the breathing intensity law
    with round, intensity(k) = round(((1 - cos(2*pi*k/N))/2) * T).  Kept
    separate from the source-derived KbdrgbMain.breathing_intensity so the two
    can be compared. -/
noncomputable def breathingIntensityRoundSpec (k N T : Nat) : Int :=
  round ((((1 : Real) - Real.cos (2 * Real.pi * k / N)) / 2) * T)

/-- The same law with floor in place of round, for the amended claim C5. -/
noncomputable def breathingIntensityFloorSpec (k N T : Nat) : Int :=
  ⌊(((1 : Real) - Real.cos (2 * Real.pi * k / N)) / 2) * T⌋

/-- Little-endian low byte: n &&& 255 is n mod 256. -/
theorem and_255_eq_mod (n : Nat) : n &&& 255 = n % 256 := by
  have h := Nat.and_pow_two_sub_one_eq_mod n 8
  norm_num at h
  exact h

/-- Shifting right by 8 is division by 256. -/
theorem shiftRight_8_eq_div (n : Nat) : n >>> 8 = n / 256 := by
  rw [Nat.shiftRight_eq_div_pow]

/-- Claim C1 (counterexample): set_color in src/kbdrgb.py does not clamp its
    channels.  Called with r = 300, the payload byte for r is 300, not the
    clamped value 255, so the claim that every setColor call clamps all four
    numeric channels before encoding is false on this variant. -/
theorem set_color_main_unclamped_counterexample :
    KbdrgbMain.set_color_payload 300 0 0 0 = [1, 0, 0, 100, 0, 300, 0, 0, 0]
    ∧ ArchiveDaemon.clampChan 300 = 255
    ∧ KbdrgbMain.set_color_payload 300 0 0 0 ≠
        [1, 0, 0, 100, 0, ArchiveDaemon.clampChan 300, ArchiveDaemon.clampChan 0,
         ArchiveDaemon.clampChan 0, ArchiveDaemon.clampIntensity 0] := by
  refine ⟨rfl, by decide, ?_⟩
  decide

/-- Claim C1 (amended): in the archive set_color variants
    (src/archive/kbdrgb_daemon.py lines 76-94, src/archive/kbdrgb.py lines
    125-145) each of the four numeric channels is clamped to [0,255]
    independently, and payload bytes 5-8 equal the clamped values; the
    src/kbdrgb.py variant passes channels through unclamped. -/
theorem set_color_daemon_clamps :
    ∀ (r g b i : Int) (s e : Nat),
      ((ArchiveDaemon.set_color_payload r g b i s e).getD 5 0 = ArchiveDaemon.clampChan r
        ∧ (ArchiveDaemon.set_color_payload r g b i s e).getD 6 0 = ArchiveDaemon.clampChan g
        ∧ (ArchiveDaemon.set_color_payload r g b i s e).getD 7 0 = ArchiveDaemon.clampChan b
        ∧ (ArchiveDaemon.set_color_payload r g b i s e).getD 8 0 = ArchiveDaemon.clampIntensity i)
      ∧ (0 ≤ ArchiveDaemon.clampChan r ∧ ArchiveDaemon.clampChan r ≤ 255)
      ∧ (0 ≤ ArchiveDaemon.clampChan g ∧ ArchiveDaemon.clampChan g ≤ 255)
      ∧ (0 ≤ ArchiveDaemon.clampChan b ∧ ArchiveDaemon.clampChan b ≤ 255)
      ∧ (0 ≤ ArchiveDaemon.clampIntensity i ∧ ArchiveDaemon.clampIntensity i ≤ 255) := by
  intro r g b i s e
  refine ⟨⟨rfl, rfl, rfl, rfl⟩, ?_, ?_, ?_, ?_⟩ <;>
    simp only [ArchiveDaemon.clampChan, ArchiveDaemon.clampIntensity,
      ArchiveDaemon.MAX_INTENSITY] <;> omega

/-- Claim C2: for any range (start, end) representable in 16 bits, the report
    emitted by the archive set_color has report id 0x05 and payload
    [0x01, startLo, startHi, endLo, endHi, r, g, b, i] where the range bytes
    are exactly the little-endian 16-bit encodings (low byte start mod 256,
    high byte start div 256, and likewise for end), and the range indices are
    not channel-clamped. -/
theorem set_color_range_little_endian (r g b i : Int) (start_id end_id : Nat)
    (hs : start_id < 65536) (he : end_id < 65536) :
    ArchiveDaemon.set_color_report r g b i start_id end_id =
      (0x05,
       [0x01,
        ((start_id % 256 : Nat) : Int), ((start_id / 256 : Nat) : Int),
        ((end_id % 256 : Nat) : Int), ((end_id / 256 : Nat) : Int),
        ArchiveDaemon.clampChan r, ArchiveDaemon.clampChan g, ArchiveDaemon.clampChan b,
        ArchiveDaemon.clampIntensity i]) := by
  have hs2 : start_id / 256 < 256 := by omega
  have he2 : end_id / 256 < 256 := by omega
  unfold ArchiveDaemon.set_color_report ArchiveDaemon.set_color_payload ArchiveDaemon.SET_COLOR
  rw [and_255_eq_mod start_id, and_255_eq_mod end_id,
      shiftRight_8_eq_div start_id, shiftRight_8_eq_div end_id,
      and_255_eq_mod (start_id / 256), and_255_eq_mod (end_id / 256),
      Nat.mod_eq_of_lt hs2, Nat.mod_eq_of_lt he2]

/-- Claim C2 witness: the encoding theorem instantiated at the concrete range
    (4660, 100) = (0x1234, 0x64) and channels (1, 2, 3, 300). -/
theorem set_color_range_little_endian_witness :
    (4660 : Nat) < 65536 ∧ (100 : Nat) < 65536 ∧
    ArchiveDaemon.set_color_report 1 2 3 300 4660 100 =
      (0x05,
       [0x01,
        ((4660 % 256 : Nat) : Int), ((4660 / 256 : Nat) : Int),
        ((100 % 256 : Nat) : Int), ((100 / 256 : Nat) : Int),
        ArchiveDaemon.clampChan 1, ArchiveDaemon.clampChan 2, ArchiveDaemon.clampChan 3,
        ArchiveDaemon.clampIntensity 300]) :=
  ⟨by decide, by decide,
   set_color_range_little_endian 1 2 3 300 4660 100 (by decide) (by decide)⟩

/-- Claim C3 (counterexample): when the bounded join in stop() times out, the
    superseded worker A is orphaned and start() spawns B anyway
    (src/archive/kbdrgb.py lines 582-586, 571-572), so the final state of the
    start trace has two workers alive simultaneously.  This refutes the
    invariant that at no time are two workers alive for the same engine. -/
theorem start_two_workers_counterexample :
    (ArchiveKbdrgb.startTrace false).getLast? = some ⟨true, true, false⟩
    ∧ ArchiveKbdrgb.aliveWorkers ⟨true, true, false⟩ = 2 := by
  decide

/-- Claim C3 (amended): starting pattern B while A runs sets the shared stop
    flag (trace state 1) strictly before B is spawned - B is alive only in the
    last trace state, so before the first device write of B - and when the
    bounded join succeeds, at most one worker is alive at every point of the
    trace.  Only a join timeout produces the orphaned second worker. -/
theorem start_flag_set_before_spawn :
    (∀ joinOk : Bool,
        (ArchiveKbdrgb.startTrace joinOk).get? 1 = some ⟨true, false, true⟩
        ∧ ((ArchiveKbdrgb.startTrace joinOk).take 4).all (fun s => !s.bAlive) = true)
    ∧ (∀ s ∈ ArchiveKbdrgb.startTrace true, ArchiveKbdrgb.aliveWorkers s ≤ 1) := by
  constructor
  · intro joinOk
    cases joinOk <;> exact ⟨rfl, rfl⟩
  · decide

/-- Claim C3 witness: the amended theorem applied to the initial trace state
    of a superseding start whose join succeeds. -/
theorem start_flag_set_before_spawn_witness :
    ArchiveKbdrgb.aliveWorkers ⟨true, false, false⟩ ≤ 1 :=
  start_flag_set_before_spawn.2 ⟨true, false, false⟩ (by decide)

/-- Claim C4 (counterexample): AnimationController.stop in src/kbdrgb.py
    (lines 109-112) calls disable_autonomous unconditionally, so stopping an
    idle engine performs a device write (feature report 0x0B); the claim that
    stop() on an idle engine performs no device write is false on this
    variant. -/
theorem stop_idle_write_counterexample :
    (KbdrgbMain.AnimCtrl.stop ⟨false, false, "Static"⟩).2 = [0x0B]
    ∧ (KbdrgbMain.AnimCtrl.stop ⟨false, false, "Static"⟩).2 ≠ ([] : List Nat) := by
  exact ⟨rfl, by decide⟩

/-- Claim C4 (amended): AnimationController.stop in src/archive/kbdrgb.py
    (lines 577-590) called on an idle engine is a safe no-op: it is total (no
    exception), changes nothing, and performs no device write; the
    src/kbdrgb.py variant additionally sends a disable_autonomous report even
    when idle. -/
theorem stop_idle_noop_archive :
    ∀ flag : Bool,
      ArchiveKbdrgb.AnimCtrl.stop ⟨false, flag⟩ = (⟨false, flag⟩, []) := by
  intro flag
  rfl

/-- Claim C5 (counterexample): the code computes the breathing intensity with
    int() truncation, not round.  At k = 45, N = 180, T = 255 the phase is
    exactly 1/2, the code writes floor(127.5) = 127, while the claimed
    round(127.5) = 128. -/
theorem breathing_round_counterexample :
    KbdrgbMain.breathing_intensity 45 255 = 127
    ∧ breathingIntensityRoundSpec 45 180 255 = 128 := by
  have hangle : ((45 : Nat) : Real) * (2 * Real.pi) / 180 = Real.pi / 2 := by
    push_cast
    ring
  have hangle2 : 2 * Real.pi * ((45 : Nat) : Real) / ((180 : Nat) : Real) = Real.pi / 2 := by
    push_cast
    ring
  constructor
  · unfold KbdrgbMain.breathing_intensity
    rw [hangle, Real.cos_pi_div_two]
    push_cast
    norm_num [Int.floor_eq_iff]
  · unfold breathingIntensityRoundSpec
    rw [hangle2, Real.cos_pi_div_two]
    push_cast
    rw [round_eq]
    norm_num [Int.floor_eq_iff]

/-- Claim C5 (amended): the intensity written at step k of the breathing
    pattern in src/kbdrgb.py equals floor(((1 - cos(2*pi*k/N))/2) * T) with
    N = 180 (int() truncation of the nonnegative product); in particular the
    cycle endpoints k = 0 and k = N coincide (both intensity 0) and the
    intensity at k = N/2 equals exactly T. -/
theorem breathing_floor_law :
    ∀ k T : Nat,
      KbdrgbMain.breathing_intensity k T = breathingIntensityFloorSpec k 180 T
      ∧ KbdrgbMain.breathing_intensity 0 T = 0
      ∧ KbdrgbMain.breathing_intensity 180 T = KbdrgbMain.breathing_intensity 0 T
      ∧ KbdrgbMain.breathing_intensity 90 T = T := by
  intro k T
  have h0 : KbdrgbMain.breathing_intensity 0 T = 0 := by
    unfold KbdrgbMain.breathing_intensity
    rw [show ((0 : Nat) : Real) * (2 * Real.pi) / 180 = 0 by push_cast; ring,
        Real.cos_zero]
    norm_num
  have h180 : KbdrgbMain.breathing_intensity 180 T = 0 := by
    unfold KbdrgbMain.breathing_intensity
    rw [show ((180 : Nat) : Real) * (2 * Real.pi) / 180 = 2 * Real.pi by push_cast; ring,
        Real.cos_two_pi]
    norm_num
  refine ⟨?_, h0, by rw [h0, h180], ?_⟩
  · unfold KbdrgbMain.breathing_intensity breathingIntensityFloorSpec
    rw [show (k : Real) * (2 * Real.pi) / 180 = 2 * Real.pi * (k : Real) / ((180 : Nat) : Real) by
      push_cast; ring]
  · unfold KbdrgbMain.breathing_intensity
    rw [show ((90 : Nat) : Real) * (2 * Real.pi) / 180 = Real.pi by push_cast; ring,
        Real.cos_pi]
    rw [show ((1 : Real) - (-1)) / 2 * (T : Real) = (T : Real) by ring]
    exact Int.floor_natCast T

/-- Segment bounds are preserved by a keystroke boost: the boosted value is
    capped at 255 by min, and only increases, so it stays at or above the
    baseline. -/
theorem boostAt_bounds (led : Fin 20) (vs : Nat → Nat)
    (h : ∀ i, 51 ≤ vs i ∧ vs i ≤ 255) :
    ∀ i, 51 ≤ ArchiveKbdrgb.boostAt led vs i ∧ ArchiveKbdrgb.boostAt led vs i ≤ 255 := by
  intro i
  unfold ArchiveKbdrgb.boostAt
  split
  · have hv := h i
    generalize ArchiveKbdrgb.ripple_boost / (Nat.dist i led.val + 1) = b
    omega
  · exact h i

/-- Segment bounds are preserved by the per-tick decay: a segment above the
    baseline moves down by 2 but never below the baseline. -/
theorem decayAt_bounds (vs : Nat → Nat)
    (h : ∀ i, 51 ≤ vs i ∧ vs i ≤ 255) :
    ∀ i, 51 ≤ ArchiveKbdrgb.decayAt vs i ∧ ArchiveKbdrgb.decayAt vs i ≤ 255 := by
  intro i
  unfold ArchiveKbdrgb.decayAt ArchiveKbdrgb.base_intensity
  split
  · have hv := h i
    omega
  · exact h i

/-- Segment bounds are preserved by one ripple loop iteration. -/
theorem rippleStep_bounds (ev : Option (Fin 20)) (vs : Nat → Nat)
    (h : ∀ i, 51 ≤ vs i ∧ vs i ≤ 255) :
    ∀ i, 51 ≤ ArchiveKbdrgb.rippleStep ev vs i ∧ ArchiveKbdrgb.rippleStep ev vs i ≤ 255 := by
  cases ev with
  | none => exact decayAt_bounds vs h
  | some led => exact decayAt_bounds (ArchiveKbdrgb.boostAt led vs) (boostAt_bounds led vs h)

/-- Segment bounds are preserved by any sequence of ripple loop iterations. -/
theorem rippleRun_bounds :
    ∀ (evs : List (Option (Fin 20))) (vs : Nat → Nat),
      (∀ i, 51 ≤ vs i ∧ vs i ≤ 255) →
      ∀ i, 51 ≤ ArchiveKbdrgb.rippleRun evs vs i ∧ ArchiveKbdrgb.rippleRun evs vs i ≤ 255 := by
  intro evs
  induction evs with
  | nil => intro vs h; exact h
  | cons e es ih => intro vs h; exact ih _ (rippleStep_bounds e vs h)

/-- Claim C6: at every step of the ripple pattern and for every segment, the
    stored intensity stays between the 20 percent baseline 51 = int(0.20*255)
    and 255, for any sequence of random boost events. -/
theorem ripple_intensity_bounds :
    ∀ (events : List (Option (Fin 20))) (i : Nat),
      51 ≤ ArchiveKbdrgb.rippleRun events ArchiveKbdrgb.rippleInit i
      ∧ ArchiveKbdrgb.rippleRun events ArchiveKbdrgb.rippleInit i ≤ 255 := by
  intro events i
  refine rippleRun_bounds events ArchiveKbdrgb.rippleInit (fun j => ?_) i
  unfold ArchiveKbdrgb.rippleInit ArchiveKbdrgb.base_intensity
  omega

/-- Claim C7 (counterexample): the breathing worker of src/archive/kbdrgb.py
    returns when a per-step set_color fails (lines 299-301), so with outcome
    sequence [failure, success] only the failing write is performed and the
    animation stops; rainbow, by contrast, performs both steps.  This refutes
    the claim that every running pattern absorbs a single failed per-step
    write. -/
theorem breathing_stops_on_failed_write_counterexample :
    ArchiveKbdrgb.breathingWrites [false, true] = 1
    ∧ ArchiveKbdrgb.rainbowWrites [false, true] = 2 := by
  decide

/-- Claim C7 (amended): the rainbow worker of src/archive/kbdrgb.py (and the
    breathing workers of src/kbdrgb.py and the daemon) ignore per-step write
    failures and keep looping, but the breathing worker of
    src/archive/kbdrgb.py exits at the first failed per-step write. -/
theorem per_step_failure_absorption :
    ∀ outcomes : List Bool,
      ArchiveKbdrgb.rainbowWrites outcomes = outcomes.length
      ∧ ArchiveKbdrgb.breathingWrites (false :: outcomes) = 1 := by
  intro outcomes
  refine ⟨?_, rfl⟩
  induction outcomes with
  | nil => rfl
  | cons o os ih => simp [ArchiveKbdrgb.rainbowWrites, ih]

/-- Claim C8 (counterexample): QueueHandler.emit in src/kbdrgb.py (lines
    32-35) silently drops the new record when the queue is full: emitting 12
    into the full queue [10, 11] of capacity 2 leaves [10, 11] - the newest
    record is dropped and the oldest kept, not the other way around. -/
theorem emit_drop_newest_counterexample :
    KbdrgbMain.emit 2 [10, 11] 12 = [10, 11]
    ∧ KbdrgbMain.emit 2 [10, 11] 12 ≠ [11, 12] := by
  decide

/-- Claim C8 (amended): the archive QueueHandler (src/archive/kbdrgb.py lines
    60-75) never blocks and implements drop-oldest: below capacity the record
    is appended, and on overflow the oldest record is evicted to admit the
    newest; the src/kbdrgb.py variant instead drops the newest record when
    full. -/
theorem emit_archive_drop_oldest :
    ∀ (maxsize : Nat) (q : List Nat) (x : Nat),
      (q.length < maxsize → ArchiveKbdrgb.emit maxsize q x = q ++ [x])
      ∧ (0 < maxsize → q.length = maxsize →
          ArchiveKbdrgb.emit maxsize q x = q.drop 1 ++ [x]) := by
  intro m q x
  constructor
  · intro h
    unfold ArchiveKbdrgb.emit
    rw [if_pos h]
  · intro hm hq
    unfold ArchiveKbdrgb.emit
    rw [if_neg (by omega)]
    rw [if_pos (by rw [List.length_drop]; omega)]

/-- Claim C8 witness: the amended theorem applied to the full queue [5, 6] of
    capacity 2 receiving 7: the oldest record 5 is evicted and 7 admitted. -/
theorem emit_archive_drop_oldest_witness :
    0 < 2 ∧ ([5, 6] : List Nat).length = 2 ∧ ArchiveKbdrgb.emit 2 [5, 6] 7 = [6, 7] :=
  ⟨by decide, by decide,
   by simpa using (emit_archive_drop_oldest 2 [5, 6] 7).2 (by decide) (by decide)⟩

/-- Claim C9 (counterexample): LiveSender._flush returns without writing when
    the device path does not exist (kbdrgb_gui.py lines 212-214), even though
    the latest queued value differs from the last sent value, so the claimed
    iff between a tick write and a value difference is false. -/
theorem live_sender_device_missing_counterexample :
    (OldGui.LiveSender.flush false
        (OldGui.LiveSender.queue OldGui.LiveSender.init (255, 0, 0, 255))).2 = false
    ∧ (OldGui.LiveSender.queue OldGui.LiveSender.init (255, 0, 0, 255)).pending ≠
        (OldGui.LiveSender.queue OldGui.LiveSender.init (255, 0, 0, 255)).last := by
  decide

/-- Claim C9 (amended): on each tick, LiveSender issues a coalesced write
    (disableAutonomous + setColor) if and only if the device path exists and
    the latest queued value differs from the last value recorded as sent - at
    most one write per tick by construction - and, one tick after the final
    queued value with the device present, that value is recorded as sent (no
    permanent coalescing loss). -/
theorem live_sender_coalescing :
    ∀ (s : OldGui.LiveSender) (dev : Bool) (v : Int × Int × Int × Int),
      ((OldGui.LiveSender.flush dev s).2 = true ↔
        (dev = true ∧ s.pending ≠ none ∧ s.pending ≠ s.last))
      ∧ (OldGui.LiveSender.flush true (OldGui.LiveSender.queue s v)).1.last = some v := by
  intro s dev v
  obtain ⟨p, l⟩ := s
  constructor
  · cases p with
    | none => simp [OldGui.LiveSender.flush]
    | some pv =>
      by_cases hl : l = some pv
      · simp [OldGui.LiveSender.flush, hl]
      · cases dev <;>
          simp [OldGui.LiveSender.flush, hl, Ne.symm hl]
  · by_cases hl : l = some v
    · simp [OldGui.LiveSender.queue, OldGui.LiveSender.flush, hl]
    · simp [OldGui.LiveSender.queue, OldGui.LiveSender.flush, hl, Ne.symm hl]

/-- Claim C10: apply_state substitutes the documented default for each missing
    field independently - style "static", color (255,255,255), intensity 255,
    interval 0.1 s, device_path the configured default - passes present fields
    through unchanged, and invokes start_animation with exactly those
    values. -/
theorem apply_state_defaults :
    ∀ (dflt : String) (s : Option String) (c : Option (Nat × Nat × Nat))
      (i : Option Nat) (v : Option Rat) (p : Option String)
      (sv : String) (cv : Nat × Nat × Nat) (iv : Nat) (vv : Rat) (pv : String),
      (ArchiveDaemon.apply_state dflt ⟨none, c, i, v, p⟩).style = "static"
      ∧ (ArchiveDaemon.apply_state dflt ⟨some sv, c, i, v, p⟩).style = sv
      ∧ (ArchiveDaemon.apply_state dflt ⟨s, none, i, v, p⟩).color = (255, 255, 255)
      ∧ (ArchiveDaemon.apply_state dflt ⟨s, some cv, i, v, p⟩).color = cv
      ∧ (ArchiveDaemon.apply_state dflt ⟨s, c, none, v, p⟩).intensity = 255
      ∧ (ArchiveDaemon.apply_state dflt ⟨s, c, some iv, v, p⟩).intensity = iv
      ∧ (ArchiveDaemon.apply_state dflt ⟨s, c, i, none, p⟩).interval = 0.1
      ∧ (ArchiveDaemon.apply_state dflt ⟨s, c, i, some vv, p⟩).interval = vv
      ∧ (ArchiveDaemon.apply_state dflt ⟨s, c, i, v, none⟩).device_path = dflt
      ∧ (ArchiveDaemon.apply_state dflt ⟨s, c, i, v, some pv⟩).device_path = pv := by
  intro dflt s c i v p sv cv iv vv pv
  exact ⟨rfl, rfl, rfl, rfl, rfl, rfl, rfl, rfl, rfl, rfl⟩
